import Mathlib

/-!
Shallow embedding of `src/ldapReader.h` (class `ldapReader`, a paged LDAP
read wrapper) together with theorems checking the specification's claims.

The external OpenLDAP library is modelled by a `Server` value: `respond`
models one `ldap_search_ext_s` + `ldap_parse_result` +
`ldap_parse_pageresponse_control` round trip (one page execution), and
`bindResult` models `ldap_sasl_bind_s`.  C pointers that may be NULL are
modelled as `Option`; exceptions (`ldapException`) as `Except String`;
byte buffers as `List Nat`.  Each operation that can send search requests
also returns the list of requests it issued, so that "no request was sent"
is expressible.
-/

set_option synthInstance.maxSize 1000

namespace LdapSpec

/-- A byte string (contents of a C buffer). -/
abbrev Bytes := List Nat

/-- A `struct berval`: `none` models a NULL `bv_val`; `some bs` models a
buffer holding the bytes `bs` followed by a terminating NUL (the ber
routines NUL-terminate the buffers they allocate). -/
abbrev Berval := Option Bytes

/-- C `strlen` on a NUL-terminated buffer holding `bs` then NUL: the number
of bytes before the first zero byte. -/
def cstrlen (bs : Bytes) : Nat :=
  (bs.takeWhile (fun b => b != 0)).length

/-- The test at ldapReader.h:466,
`pageCookie.bv_val != NULL && strlen(pageCookie.bv_val) > 0`. -/
def morePageTest (c : Berval) : Bool :=
  match c with
  | none => false
  | some bs => decide (0 < cstrlen bs)

/-- One directory entry: its attributes, each with its (ordered) values. -/
abbrev Entry := List (String × List Bytes)

/-- One page of results (the entry chain of one `LDAPMessage` result). -/
abbrev Page := List Entry

/-- The paging control built by `_preparePageControl`
(`ldap_create_page_control(conn, pageSize, &pageCookie, isPagingCritical, ...)`).
The cookie is `Option Berval`: `none` models the case where the member
`pageCookie` has never been written (it is not initialized by `_start`),
i.e. an indeterminate `struct berval`. -/
structure PageControl where
  size : Int
  cookie : Option Berval
  critical : Bool
  deriving Repr, DecidableEq

/-- One search request as handed to `ldap_search_ext_s` in `_query`:
base, filter, attribute list (NULL = all attributes) and the attached
paging control. -/
structure SearchReq where
  base : Option String
  filter : Option String
  attrs : Option (List String)
  control : PageControl
  deriving Repr, DecidableEq

/-- The server's answer to one page execution: the entries of the page,
the continuation cookie of the page-response control, and the (advisory)
count reported by the control. -/
structure PageResp where
  entries : Page
  cookie : Berval
  count : Nat
  deriving Repr, DecidableEq

/-- The external world: the LDAP library + server.  `respond` may fail,
modelling a thrown `ldapException` in `_query`; `bindResult` likewise for
`_bind`. -/
structure Server where
  respond : SearchReq → Except String PageResp
  bindResult : Option String → Option String → Except String Unit

/-- The data members of class `ldapReader` that the modelled operations
read or write.  `entry` is modelled as the page the cursor walks plus the
index of the current entry in it: `ldap_next_entry` only ever follows the
chain of the message the entry belongs to, so an entry handle determines
its own page even after `result` has been replaced by a later query. -/
structure ReaderState where
  uri : Option String
  version : Nat
  isInitialized : Bool
  isBinded : Bool
  isCredExist : Bool
  bindUser : Option String
  bindCred : Option String
  searchBase : Option String
  searchFilter : Option String
  requestedAttributes : Option (List String)
  pageSize : Int
  pageCookie : Option Berval
  isPagingCritical : Bool
  result : Option Page
  entry : Option (Page × Nat)
  isMorePageAvailable : Bool
  resultCount : Nat
  deriving Repr, DecidableEq

/-- `_DEFAULT_PAGE_SIZE`. -/
def DEFAULT_PAGE_SIZE : Int := 1000

/-- `_DEFAULT_MAX_NUMBER_OF_ATTRIBUTES`. -/
def DEFAULT_MAX_NUMBER_OF_ATTRIBUTES : Nat := 50

/-- `_start()`: the defaults set at construction.  Note that `_start` does
NOT assign `pageCookie` (nor `bindUser`); their `none` here stands for
"never written" (indeterminate contents in the C object). -/
def ldapStart : ReaderState where
  uri := none
  version := 0
  isInitialized := false
  isBinded := false
  isCredExist := false
  bindUser := none
  bindCred := none
  searchBase := none
  searchFilter := none
  requestedAttributes := none
  pageSize := DEFAULT_PAGE_SIZE
  pageCookie := none
  isPagingCritical := true
  result := none
  entry := none
  isMorePageAvailable := false
  resultCount := 0

/-- The two-argument constructor `ldapReader(serverUri)`:
`_start`, `_setUri`, `_initialize`, `_setVersion(LDAP_VERSION3)`. -/
def mkReader (serverUri : String) : ReaderState :=
  { ldapStart with uri := some serverUri, isInitialized := true, version := 3 }

/-- `_setCred`: store (copies of) the bind dn and password and mark
credentials present. -/
def setCred (bindU bindP : String) (s : ReaderState) : ReaderState :=
  { s with bindUser := some bindU, bindCred := some bindP, isCredExist := true }

/-- `_bind`: `ldap_sasl_bind_s`; on failure throw, on success set
`isBinded`. -/
def bindRaw (srv : Server) (s : ReaderState) : Except String ReaderState :=
  match srv.bindResult s.bindUser s.bindCred with
  | .error e => .error e
  | .ok _ => .ok { s with isBinded := true }

/-- `bind(bool rebind = false)`. -/
def bind (srv : Server) (rebind : Bool) (s : ReaderState) :
    Except String ReaderState :=
  if s.isBinded && !rebind then .error "Already binded"
  else if !s.isCredExist then .error "Auth parameters doesn\x27t exist"
  else bindRaw srv s

/-- `bind(const char* bindUser, const char* bindPass, bool rebind = false)`. -/
def bindWith (srv : Server) (bindU bindP : String) (rebind : Bool)
    (s : ReaderState) : Except String ReaderState :=
  if s.isBinded && !rebind then .error "Already binded"
  else bindRaw srv (setCred bindU bindP s)

/-- `setPageSize(int ps)`. -/
def setPageSize (ps : Int) (s : ReaderState) : ReaderState :=
  { s with pageSize := ps }

/-- `_preparePageControl` / `_prepareControls`: build the paging control
from the current page size, the current `pageCookie`, and the criticality
flag. -/
def preparePageControl (s : ReaderState) : PageControl :=
  { size := s.pageSize, cookie := s.pageCookie, critical := s.isPagingCritical }

/-- The search request `_query` hands to `ldap_search_ext_s`: the stored
base, filter and attribute list plus the prepared paging control. -/
def requestOf (s : ReaderState) : SearchReq :=
  { base := s.searchBase
    filter := s.searchFilter
    attrs := s.requestedAttributes
    control := preparePageControl s }

/-- `_query()`: build the controls, run `ldap_search_ext_s` over
(base, SUBTREE, filter, requestedAttributes, controls), parse the result
and the page-response control, store the new result, cookie and count, and
set `isMorePageAvailable` by the strlen test of ldapReader.h:466.
The second component lists the search requests sent (always exactly the
one, even when the server answers with an error). -/
def queryRaw (srv : Server) (s : ReaderState) :
    Except String ReaderState × List SearchReq :=
  let req : SearchReq := requestOf s
  match srv.respond req with
  | .error e => (.error e, [req])
  | .ok resp =>
      (.ok { s with
              result := some resp.entries
              resultCount := resp.count
              pageCookie := some resp.cookie
              isMorePageAvailable := morePageTest resp.cookie }, [req])

/-- `query(searchFilter, searchBase, attrNum, ...)`: store filter and base;
if `attrNum > 0`, check the bound (throwing before anything is sent) and
store the attribute list (when `attrNum = 0` the previously stored list is
left untouched); then free the old result and run `_query`.  The attribute
list is modelled as a Lean list (the NULL terminator of the C array is
implicit), `attrNum` as its length. -/
def query (srv : Server) (searchFilter searchBase : String)
    (attrs : List String) (s : ReaderState) :
    Except String ReaderState × List SearchReq :=
  let s1 := { s with searchFilter := some searchFilter,
                     searchBase := some searchBase }
  if 0 < attrs.length then
    if DEFAULT_MAX_NUMBER_OF_ATTRIBUTES < attrs.length then
      (.error "Too many attributes requested.", [])
    else
      queryRaw srv { s1 with requestedAttributes := some attrs }
  else
    queryRaw srv s1

/-- The two-argument overload `query(searchFilter, searchBase)`, which
delegates with `attrNum = 0`. -/
def query2 (srv : Server) (searchFilter searchBase : String)
    (s : ReaderState) : Except String ReaderState × List SearchReq :=
  query srv searchFilter searchBase [] s

/-- `ldap_first_entry`: the head of the result's entry chain, or NULL for
an empty result. -/
def firstEntry (page : Page) : Option (Page × Nat) :=
  match page with
  | [] => none
  | _ :: _ => some (page, 0)

/-- `ldap_next_entry`: the successor of an entry in its own message's
chain, or NULL at the end. -/
def nextEntry : Page × Nat → Option (Page × Nat)
  | (page, i) => if i + 1 < page.length then some (page, i + 1) else none

/-- `fetch()`, with an explicit recursion bound.  The source recursion
(`_query(); return fetch();`) always re-enters with `entry == NULL`, a
branch that never recurses again, so the recursion depth is at most one
and fuel 2 is exact (`fetchFuel_const` below). -/
def fetchFuel (srv : Server) :
    Nat → ReaderState → Except String (Bool × ReaderState) × List SearchReq
  | 0, s => (.ok (false, s), [])
  | fuel + 1, s =>
    match s.result with
    | none => (.ok (false, s), [])
    | some page =>
      match s.entry with
      | none =>
        match firstEntry page with
        | some e => (.ok (true, { s with entry := some e }), [])
        | none => (.ok (false, { s with entry := none }), [])
      | some e =>
        match nextEntry e with
        | some e2 => (.ok (true, { s with entry := some e2 }), [])
        | none =>
          let s2 := { s with entry := none }
          if s2.isMorePageAvailable then
            match queryRaw srv s2 with
            | (.error err, reqs) => (.error err, reqs)
            | (.ok s3, reqs) =>
              match fetchFuel srv fuel s3 with
              | (r, reqs2) => (r, reqs ++ reqs2)
          else
            (.ok (false, s2), [])

/-- `fetch()`. -/
def fetch (srv : Server) (s : ReaderState) :
    Except String (Bool × ReaderState) × List SearchReq :=
  fetchFuel srv 2 s

/-- `ldap_get_values_len`: the values of the named attribute of an entry,
NULL (`none`) when the entry does not carry the attribute. -/
def getValuesLen (e : Entry) (attributeName : String) : Option (List Bytes) :=
  e.lookup attributeName

/-- The entry the cursor currently points at, if any. -/
def currentEntry (s : ReaderState) : Option Entry :=
  match s.entry with
  | none => none
  | some (page, i) => some (page.getD i [])

/-- `getAttribute(attributeName)`: throw when no entry is positioned,
otherwise return whatever `ldap_get_values_len` returns (NULL for an
absent attribute is passed through, not turned into an error). -/
def getAttribute (s : ReaderState) (attributeName : String) :
    Except String (Option (List Bytes)) :=
  match s.entry with
  | none => .error "No entry retrieved from server"
  | some (page, i) => .ok (getValuesLen (page.getD i []) attributeName)

/-- A memory action performed by `clearBerval`: freeing one value
(`ber_bvfree(ptr[i])`) or the array itself (`delete [] ptr`). -/
inductive FreeAct where
  | val (p : Nat)
  | arr
  deriving Repr, DecidableEq

/-- The loop `for(int i=0; ptr[i] != NULL; i++) ber_bvfree(ptr[i]);` over
the cells of the array (a cell is `none` for the NULL terminator). -/
def freeLoop : List (Option Nat) → List FreeAct
  | [] => []
  | none :: _ => []
  | some p :: rest => FreeAct.val p :: freeLoop rest

/-- `clearBerval(berval** ptr)`: a NULL array is left alone; otherwise
every value up to the NULL terminator is freed, then the array. -/
def clearBerval (ptr : Option (List (Option Nat))) : List FreeAct :=
  match ptr with
  | none => []
  | some cells => freeLoop cells ++ [FreeAct.arr]

/-! ### A well-behaved paged directory server

`stdServer db` pages the fixed entry list `db` by the page size sent in the
request's paging control, encoding the next offset in the cookie: the
cookie `[o]` (one nonzero byte) means "continue at offset `o`", and the
empty cookie (zero length, non-NULL value, as ber-allocated cookies are)
means "no more pages".  A request whose control carries an indeterminate
or unrecognized cookie is read as "start at offset 0". -/

/-- Offset encoded in a request cookie (0 for empty/indeterminate). -/
def decodeCookie : Option Berval → Nat
  | some (some (o :: _)) => o
  | _ => 0

/-- The standard paged server over a fixed list of entries; binds always
succeed. -/
def stdServer (db : Page) : Server where
  respond req :=
    let o := decodeCookie req.control.cookie
    let psize := req.control.size.toNat
    let pageEntries := (db.drop o).take psize
    let next := o + psize
    let ck : Bytes := if next < db.length then [next] else []
    .ok { entries := pageEntries, cookie := some ck, count := db.length }
  bindResult _ _ := .ok ()

/-- The state after a successful `query`, or `none` if it threw. -/
def afterQuery (srv : Server) (f b : String) (attrs : List String)
    (s : ReaderState) : Option ReaderState :=
  match (query srv f b attrs s).1 with
  | .ok s2 => some s2
  | .error _ => none

/-- The booleans returned by `n` successive `fetch()` calls (cut short if
one throws). -/
def fetchTrace (srv : Server) : ReaderState → Nat → List Bool
  | _, 0 => []
  | s, n + 1 =>
    match (fetch srv s).1 with
    | .ok (b, s2) => b :: fetchTrace srv s2 n
    | .error _ => []

/-! ### Reachable states

The public operations of the class, and the states reachable by running a
sequence of them from a freshly constructed reader.  When an operation
throws, the model keeps the pre-call state (none of the modelled
operations changes `result` or `entry` before a point where it can
throw, so this is faithful for the fields those invariants speak about). -/

/-- One public call on the reader. -/
inductive Op where
  | doQuery (f b : String) (attrs : List String)
  | doFetch
  | doBind (rebind : Bool)
  | doBindWith (u p : String) (rebind : Bool)
  | doSetPageSize (n : Int)

/-- Execute one call against the server. -/
def step (srv : Server) (s : ReaderState) : Op → ReaderState
  | .doQuery f b attrs =>
    match (query srv f b attrs s).1 with
    | .ok s2 => s2
    | .error _ => s
  | .doFetch =>
    match (fetch srv s).1 with
    | .ok (_, s2) => s2
    | .error _ => s
  | .doBind rebind =>
    match bind srv rebind s with
    | .ok s2 => s2
    | .error _ => s
  | .doBindWith u p rebind =>
    match bindWith srv u p rebind s with
    | .ok s2 => s2
    | .error _ => s
  | .doSetPageSize n => setPageSize n s

/-- Run a sequence of calls. -/
def run (srv : Server) (ops : List Op) (s : ReaderState) : ReaderState :=
  ops.foldl (step srv) s

/-- The cursor invariant: with no result message present, no entry handle
is held. -/
def cursorInv (s : ReaderState) : Prop :=
  s.result = none → s.entry = none

/-! ### Concrete fixtures used by witnesses and counterexamples -/

/-- A directory entry with a single-valued attribute `cn`. -/
def entA : Entry := [("cn", [[1]])]

/-- A second entry. -/
def entB : Entry := [("cn", [[2]])]

/-- A third entry. -/
def entC : Entry := [("cn", [[3]])]

/-- A reader built for page size 5. -/
def rdrP5 : ReaderState := { mkReader "ldap://s" with pageSize := 5 }

/-- A reader built for page size 2. -/
def rdrP2 : ReaderState := { mkReader "ldap://s" with pageSize := 2 }

/-- A server over the three fixture entries. -/
def srv3 : Server := stdServer [entA, entB, entC]

/-- A server over the two fixture entries. -/
def srv2 : Server := stdServer [entA, entB]

/-- A server over one fixture entry. -/
def srv1 : Server := stdServer [entA]

/-- A server whose page responses carry the binary continuation cookie
`[0, 1]`: two bytes, hence a non-empty byte sequence, whose first byte is
NUL. -/
def binCookieServer : Server where
  respond _ := .ok { entries := [entA], cookie := some [0, 1], count := 1 }
  bindResult _ _ := .ok ()

/-- A reader with stored credentials. -/
def credState : ReaderState := setCred "cn=u,dc=x" "pw0" (mkReader "ldap://s")

/-- A bound reader. -/
def boundState : ReaderState := { credState with isBinded := true }

/-- The state after the first page of `srv3` at page size 2 (cookie `[2]`
pending). -/
def midPageState : ReaderState :=
  match (query srv3 "(objectClass=user)" "ou=users" [] rdrP2).1 with
  | .ok s => s
  | .error _ => rdrP2

/-- A reader whose cursor is positioned on the first of the two entries of
`srv2`'s single page. -/
def posState : ReaderState :=
  run srv2 [Op.doQuery "(objectClass=user)" "ou=users" [], Op.doFetch]
    (mkReader "ldap://s")

/-- The state after a second query (`query2`) issued from `posState`. -/
def posState2 : ReaderState :=
  match (query2 srv2 "(objectClass=group)" "ou=groups" posState).1 with
  | .ok s => s
  | .error _ => posState

/-- The requests sent by that second query. -/
def posState2Reqs : List SearchReq :=
  (query2 srv2 "(objectClass=group)" "ou=groups" posState).2

/-- A fresh reader with filter and base stored, ready for `_query`. -/
def oneQueryPre : ReaderState :=
  { mkReader "ldap://s" with
      searchFilter := some "(objectClass=user)",
      searchBase := some "ou=users" }

/-- The state after one page execution against `srv1` from `oneQueryPre`. -/
def oneQueryState : ReaderState :=
  match (queryRaw srv1 oneQueryPre).1 with
  | .ok s => s
  | .error _ => oneQueryPre

/-- A reader positioned on `entA`, which has no attribute `mail`. -/
def entryState : ReaderState :=
  run srv1 [Op.doQuery "(objectClass=user)" "ou=users" [], Op.doFetch]
    (mkReader "ldap://s")

/-- The state after a successful first query against `srv2` from a fresh
reader, used to instantiate hypotheses about `query` with an explicit
attribute list. -/
def attrQueryState : ReaderState :=
  match (query srv2 "(objectClass=user)" "ou=users" ["cn", "sn"]
      (mkReader "ldap://s")).1 with
  | .ok s => s
  | .error _ => mkReader "ldap://s"

/-- The requests sent by that query. -/
def attrQueryReqs : List SearchReq :=
  (query srv2 "(objectClass=user)" "ou=users" ["cn", "sn"]
    (mkReader "ldap://s")).2

/-! ### Shared lemmas -/

/-- `_query` sends exactly the one request assembled from the current
members, whether or not the server reports an error. -/
theorem queryRaw_snd (srv : Server) (s : ReaderState) :
    (queryRaw srv s).2 = [requestOf s] := by
  cases hr : srv.respond (requestOf s) <;> simp [queryRaw, hr]

/-- Characterization of a successful `_query`: the server accepted the
assembled request, and exactly the four members `result`, `resultCount`,
`pageCookie` and `isMorePageAvailable` were updated from its response. -/
theorem queryRaw_fst_ok (srv : Server) (s s2 : ReaderState)
    (h : (queryRaw srv s).1 = .ok s2) :
    ∃ resp, srv.respond (requestOf s) = .ok resp
      ∧ s2 = { s with
                result := some resp.entries
                resultCount := resp.count
                pageCookie := some resp.cookie
                isMorePageAvailable := morePageTest resp.cookie } := by
  cases hr : srv.respond (requestOf s) with
  | error e => simp [queryRaw, hr] at h
  | ok resp =>
      simp only [queryRaw, hr] at h
      exact ⟨resp, rfl, (Except.ok.inj h).symm⟩

/-- `morePageTest` holds exactly when `bv_val` is non-NULL and has a
nonzero byte before the first NUL. -/
theorem morePageTest_iff (c : Berval) :
    morePageTest c = true ↔ ∃ bs, c = some bs ∧ 0 < cstrlen bs := by
  cases c with
  | none => simp [morePageTest]
  | some bs => simp [morePageTest]

/-- A successful `query` with a non-empty, in-bounds attribute list stores
the list and otherwise behaves as `_query` from the updated state. -/
theorem query_fst_ok_attrs (srv : Server) (f b : String)
    (attrs : List String) (s s1 : ReaderState)
    (h0 : 0 < attrs.length) (h50 : attrs.length ≤ DEFAULT_MAX_NUMBER_OF_ATTRIBUTES)
    (h : (query srv f b attrs s).1 = .ok s1) :
    (queryRaw srv { s with
        searchFilter := some f
        searchBase := some b
        requestedAttributes := some attrs }).1 = .ok s1 := by
  simp only [query] at h
  rw [if_pos h0, if_neg (Nat.not_lt.mpr h50)] at h
  exact h

/-- A successful `query` always installs a (possibly empty) result page. -/
theorem query_ok_result_some (srv : Server) (f b : String)
    (attrs : List String) (s s1 : ReaderState)
    (h : (query srv f b attrs s).1 = .ok s1) :
    ∃ pg, s1.result = some pg := by
  simp only [query] at h
  by_cases h0 : 0 < attrs.length
  · rw [if_pos h0] at h
    by_cases h50 : DEFAULT_MAX_NUMBER_OF_ATTRIBUTES < attrs.length
    · rw [if_pos h50] at h; exact absurd h (by simp)
    · rw [if_neg h50] at h
      obtain ⟨resp, -, rfl⟩ := queryRaw_fst_ok _ _ _ h
      exact ⟨resp.entries, rfl⟩
  · rw [if_neg h0] at h
    obtain ⟨resp, -, rfl⟩ := queryRaw_fst_ok _ _ _ h
    exact ⟨resp.entries, rfl⟩

/-- `fetch` on a reader with no result message: false, no state change, no
request. -/
theorem fetch_result_none (srv : Server) (s : ReaderState)
    (h : s.result = none) : fetch srv s = (.ok (false, s), []) := by
  simp [fetch, fetchFuel, h]

/-- `fetch` while positioned with a successor in the current page: advance
in place, no request. -/
theorem fetch_advance (srv : Server) (s : ReaderState) (page : Page)
    (e e2 : Page × Nat) (hres : s.result = some page) (hent : s.entry = some e)
    (hne : nextEntry e = some e2) :
    fetch srv s = (.ok (true, { s with entry := some e2 }), []) := by
  simp [fetch, fetchFuel, hres, hent, hne]

/-- Once `isMorePageAvailable` is false, `fetch` sends no search request. -/
theorem fetch_no_more_no_request (srv : Server) (s : ReaderState)
    (h : s.isMorePageAvailable = false) : (fetch srv s).2 = [] := by
  cases hres : s.result with
  | none => simp [fetch, fetchFuel, hres]
  | some page =>
    cases hent : s.entry with
    | none => cases hfe : firstEntry page <;> simp [fetch, fetchFuel, hres, hent, hfe]
    | some e =>
      cases hne : nextEntry e with
      | some e2 => simp [fetch, fetchFuel, hres, hent, hne]
      | none => simp [fetch, fetchFuel, hres, hent, hne, h]

/-- The cursor invariant is preserved by any successful `fetchFuel` call. -/
theorem fetchFuel_fst_ok_inv (srv : Server) :
    ∀ (n : Nat) (s s2 : ReaderState) (b : Bool),
      cursorInv s → (fetchFuel srv n s).1 = Except.ok (b, s2) → cursorInv s2 := by
  intro n
  induction n with
  | zero =>
    intro s s2 b hInv h
    simp [fetchFuel] at h
    obtain ⟨-, rfl⟩ := h
    exact hInv
  | succ n ih =>
    intro s s2 b hInv h
    cases hres : s.result with
    | none =>
      simp [fetchFuel, hres] at h
      obtain ⟨-, rfl⟩ := h
      exact hInv
    | some page =>
      cases hent : s.entry with
      | none =>
        cases hfe : firstEntry page with
        | some e =>
          simp [fetchFuel, hres, hent, hfe] at h
          obtain ⟨-, rfl⟩ := h
          intro hr
          simp [hres] at hr
        | none =>
          simp [fetchFuel, hres, hent, hfe] at h
          obtain ⟨-, rfl⟩ := h
          intro hr
          rfl
      | some e =>
        cases hne : nextEntry e with
        | some e2 =>
          simp [fetchFuel, hres, hent, hne] at h
          obtain ⟨-, rfl⟩ := h
          intro hr
          simp [hres] at hr
        | none =>
          by_cases hmore : s.isMorePageAvailable
          · simp only [fetchFuel, hres, hent, hne, hmore] at h
            simp at h
            split at h
            · simp at h
            · next s3 reqs heq =>
              simp at h
              have hq1 := congrArg Prod.fst heq
              obtain ⟨resp, -, rfl⟩ := queryRaw_fst_ok _ _ _ hq1
              refine ih _ s2 b ?_ h
              intro hr
              simp at hr
          · simp [fetchFuel, hres, hent, hne, hmore] at h
            obtain ⟨-, rfl⟩ := h
            intro hr
            rfl

/-- A successful `bind` changes neither `result` nor `entry`. -/
theorem bind_ok_frame (srv : Server) (rebind : Bool) (s s2 : ReaderState)
    (h : bind srv rebind s = .ok s2) :
    s2.result = s.result ∧ s2.entry = s.entry := by
  unfold bind bindRaw at h
  by_cases h1 : s.isBinded && !rebind
  · rw [if_pos h1] at h; exact absurd h (by simp)
  · rw [if_neg h1] at h
    by_cases h2 : !s.isCredExist
    · rw [if_pos h2] at h; exact absurd h (by simp)
    · rw [if_neg h2] at h
      cases hb : srv.bindResult s.bindUser s.bindCred with
      | error e => rw [hb] at h; exact absurd h (by simp)
      | ok u => rw [hb] at h; obtain rfl := (Except.ok.inj h).symm; exact ⟨rfl, rfl⟩

/-- A successful `bind(user, pass, rebind)` changes neither `result` nor
`entry`. -/
theorem bindWith_ok_frame (srv : Server) (u p : String) (rebind : Bool)
    (s s2 : ReaderState) (h : bindWith srv u p rebind s = .ok s2) :
    s2.result = s.result ∧ s2.entry = s.entry := by
  unfold bindWith bindRaw setCred at h
  by_cases h1 : s.isBinded && !rebind
  · rw [if_pos h1] at h; exact absurd h (by simp)
  · rw [if_neg h1] at h
    cases hb : srv.bindResult (some u) (some p) with
    | error e => simp [hb] at h
    | ok un =>
      simp only [hb] at h
      obtain rfl := (Except.ok.inj h).symm
      exact ⟨rfl, rfl⟩

/-- Each public call preserves the cursor invariant. -/
theorem step_inv (srv : Server) (s : ReaderState) (op : Op)
    (hInv : cursorInv s) : cursorInv (step srv s op) := by
  cases op with
  | doQuery f b attrs =>
    simp only [step]
    split
    · next s2 hq =>
        obtain ⟨pg, hpg⟩ := query_ok_result_some _ _ _ _ _ _ hq
        intro hr
        rw [hpg] at hr
        cases hr
    · exact hInv
  | doFetch =>
    simp only [step]
    split
    · next b s2 hq => exact fetchFuel_fst_ok_inv srv 2 s s2 b hInv hq
    · exact hInv
  | doBind rebind =>
    simp only [step]
    split
    · next s2 hq =>
        obtain ⟨hfr, hfe⟩ := bind_ok_frame srv rebind s s2 hq
        intro hr
        rw [hfe]
        exact hInv (hfr ▸ hr)
    · exact hInv
  | doBindWith u p rebind =>
    simp only [step]
    split
    · next s2 hq =>
        obtain ⟨hfr, hfe⟩ := bindWith_ok_frame srv u p rebind s s2 hq
        intro hr
        rw [hfe]
        exact hInv (hfr ▸ hr)
    · exact hInv
  | doSetPageSize n =>
    intro hr
    exact hInv hr

/-- Every state reachable from a freshly constructed reader satisfies the
cursor invariant. -/
theorem run_inv (srv : Server) (ops : List Op) (s : ReaderState)
    (hInv : cursorInv s) : cursorInv (run srv ops s) := by
  induction ops generalizing s with
  | nil => exact hInv
  | cons op rest ih => exact ih _ (step_inv srv s op hInv)

/-- The loop of `clearBerval` frees exactly the values before the NULL
terminator, in order. -/
theorem freeLoop_terminated (vs : List Nat) (rest : List (Option Nat)) :
    freeLoop (vs.map some ++ none :: rest) = vs.map FreeAct.val := by
  induction vs with
  | nil => rfl
  | cons v vs ih => simpa [freeLoop] using ih

/-! ### The claims -/

/-- C1 (refuted as stated; evidence for the code bug): for a query whose
result holds N = 1 entry at page size P = 5 against a well-behaved paged
server, the claim says `fetch()` returns true on exactly the first call
and false on every call thereafter, permanently.  In the code, the third
call returns true again: returning false set `entry` back to NULL, so the
next call re-runs `ldap_first_entry` on the still-stored last page and
re-delivers its first entry. -/
theorem fetch_true_again_after_exhaustion :
    (afterQuery srv1 "(objectClass=user)" "ou=users" [] rdrP5).map
        (fun s => fetchTrace srv1 s 3) = some [true, false, true] := by
  rfl

/-- C2 counterexample: a page response whose continuation cookie is the
non-empty byte sequence `[0, 1]` (`bv_len = 2`, first byte NUL) leaves
`isMorePageAvailable` false, because ldapReader.h:466 measures the cookie
with `strlen`, so the claimed "flag true iff the returned cookie is a
non-empty byte sequence" fails. -/
theorem moreAvailable_false_despite_nonempty_cookie :
    (afterQuery binCookieServer "(objectClass=user)" "ou=users" []
        (mkReader "ldap://s")).map
        (fun s => (s.isMorePageAvailable, s.pageCookie))
      = some (false, some (some ([0, 1] : Bytes)))
    ∧ ([0, 1] : Bytes) ≠ [] := ⟨rfl, by decide⟩

/-- C2 (amended): after every page execution (`_query`, reached from both
`query()` and `fetch()`), `isMorePageAvailable` is true iff the response
cookie's value pointer is non-NULL and has a nonzero byte before its first
NUL byte (C `strlen > 0`); and once the flag is false, `fetch()` sends no
further page request. -/
theorem moreAvailable_iff_strlen_pos (srv : Server) (s s2 sf : ReaderState)
    (reqs : List SearchReq) (h : queryRaw srv s = (.ok s2, reqs))
    (hf : sf.isMorePageAvailable = false) :
    (s2.isMorePageAvailable = true ↔
      ∃ bs, s2.pageCookie = some (some bs) ∧ 0 < cstrlen bs)
    ∧ (fetch srv sf).2 = [] := by
  have h1 := congrArg Prod.fst h
  obtain ⟨resp, -, rfl⟩ := queryRaw_fst_ok _ _ _ h1
  exact ⟨by simpa using morePageTest_iff resp.cookie,
         fetch_no_more_no_request srv sf hf⟩

/-- Witness for the amended C2 at a concrete page execution. -/
theorem moreAvailable_iff_strlen_pos_witness :
    (oneQueryState.isMorePageAvailable = true ↔
      ∃ bs, oneQueryState.pageCookie = some (some bs) ∧ 0 < cstrlen bs)
    ∧ (fetch srv1 (mkReader "ldap://s")).2 = [] :=
  moreAvailable_iff_strlen_pos srv1 oneQueryPre oneQueryState
    (mkReader "ldap://s") (queryRaw srv1 oneQueryPre).2 rfl rfl

/-- C3 (refuted as stated; evidence for the code bug): the claim says the
paging control of every query's first search request carries an empty
cookie.  In the code `query()` never resets `pageCookie`: a second query
issued while the first query's cookie `[2]` is pending sends that stale
non-empty cookie with its first request; and the very first query after
construction sends the never-initialized `pageCookie` member (modelled as
`none`), not an empty cookie. -/
theorem firstPage_control_carries_stale_cookie :
    (query srv3 "(objectClass=group)" "ou=groups" [] midPageState).2.map
        (fun r => r.control.cookie) = [some (some ([2] : Bytes))]
    ∧ 0 < cstrlen [2]
    ∧ (query srv3 "(objectClass=user)" "ou=users" []
        (mkReader "ldap://s")).2.map (fun r => r.control.cookie) = [none] :=
  ⟨rfl, by decide, rfl⟩

/-- C4: `bind` with rebind not requested while already bound fails with
the already-bound error (both overloads); `bind()` without credentials
fails with the missing-credentials error; otherwise the handshake runs and
on success the state becomes bound, on server rejection the server's
message is raised; `bind(user, pass, rebind := true)` while bound succeeds
and replaces the bound identity. -/
theorem bind_contract (srv : Server) (s : ReaderState) (u p m : String) :
    (s.isBinded = true → bind srv false s = .error "Already binded")
    ∧ (s.isBinded = true →
        bindWith srv u p false s = .error "Already binded")
    ∧ (s.isBinded = false → s.isCredExist = false →
        bind srv false s = .error "Auth parameters doesn\x27t exist")
    ∧ (s.isBinded = false → s.isCredExist = true →
        srv.bindResult s.bindUser s.bindCred = .ok () →
        bind srv false s = .ok { s with isBinded := true })
    ∧ (s.isBinded = false → s.isCredExist = true →
        srv.bindResult s.bindUser s.bindCred = .error m →
        bind srv false s = .error m)
    ∧ (srv.bindResult (some u) (some p) = .ok () →
        bindWith srv u p true s
          = .ok { s with bindUser := some u, bindCred := some p,
                         isCredExist := true, isBinded := true }) := by
  refine ⟨?_, ?_, ?_, ?_, ?_, ?_⟩
  · intro hb; simp [bind, hb]
  · intro hb; simp [bindWith, hb]
  · intro hb hc; simp [bind, hb, hc]
  · intro hb hc hok; simp [bind, bindRaw, hb, hc, hok]
  · intro hb hc herr; simp [bind, bindRaw, hb, hc, herr]
  · intro hok; simp [bindWith, bindRaw, setCred, hok]

/-- Witness for C4 at concrete states. -/
theorem bind_contract_witness :
    bind srv1 false boundState = .error "Already binded"
    ∧ bindWith srv1 "cn=v,dc=x" "pw1" false boundState
        = .error "Already binded"
    ∧ bind srv1 false (mkReader "ldap://s")
        = .error "Auth parameters doesn\x27t exist"
    ∧ bind srv1 false credState = .ok { credState with isBinded := true }
    ∧ bindWith srv1 "cn=v,dc=x" "pw1" true boundState
        = .ok { boundState with bindUser := some "cn=v,dc=x",
                                bindCred := some "pw1", isCredExist := true,
                                isBinded := true } :=
  ⟨(bind_contract srv1 boundState "cn=v,dc=x" "pw1" "m").1 rfl,
   (bind_contract srv1 boundState "cn=v,dc=x" "pw1" "m").2.1 rfl,
   (bind_contract srv1 (mkReader "ldap://s") "cn=v,dc=x" "pw1" "m").2.2.1
     rfl rfl,
   (bind_contract srv1 credState "cn=v,dc=x" "pw1" "m").2.2.2.1 rfl rfl rfl,
   (bind_contract srv1 boundState "cn=v,dc=x" "pw1" "m").2.2.2.2.2 rfl⟩

/-- C5: `getAttribute` throws the no-current-entry error exactly when no
entry is positioned; with an entry positioned that lacks the named
attribute it returns normally, handing back the NULL (empty) value set
that `ldap_get_values_len` produces for an absent attribute rather than
raising an error. -/
theorem getAttribute_contract (s : ReaderState) (name : String)
    (page : Page) (i : Nat) :
    (s.entry = none →
      getAttribute s name = .error "No entry retrieved from server")
    ∧ (s.entry = some (page, i) →
        getValuesLen (page.getD i []) name = none →
        getAttribute s name = .ok none) := by
  constructor
  · intro h; simp [getAttribute, h]
  · intro h habs
    simp only [getAttribute, h]
    rw [habs]

/-- Witness for C5: a fresh reader has no entry positioned; `entryState`
is positioned on an entry without attribute `mail`. -/
theorem getAttribute_contract_witness :
    getAttribute (mkReader "ldap://s") "cn"
        = .error "No entry retrieved from server"
    ∧ getAttribute entryState "mail" = .ok none :=
  ⟨(getAttribute_contract (mkReader "ldap://s") "cn" [] 0).1 rfl,
   (getAttribute_contract entryState "mail" [entA] 0).2 rfl rfl⟩

/-- C6: `query()` with more than the fixed maximum of 50 requested
attributes fails with the too-many-attributes error and sends no search
request at all (the empty request list). -/
theorem query_tooManyAttributes (srv : Server) (f b : String)
    (attrs : List String) (s : ReaderState)
    (h : DEFAULT_MAX_NUMBER_OF_ATTRIBUTES < attrs.length) :
    query srv f b attrs s = (.error "Too many attributes requested.", []) := by
  have h0 : 0 < attrs.length := Nat.lt_of_le_of_lt (Nat.zero_le _) h
  simp only [query]
  rw [if_pos h0, if_pos h]

/-- Witness for C6 with 51 requested attribute names. -/
theorem query_tooManyAttributes_witness :
    query srv1 "(objectClass=user)" "ou=users" (List.replicate 51 "cn")
        (mkReader "ldap://s")
      = (.error "Too many attributes requested.", []) :=
  query_tooManyAttributes srv1 "(objectClass=user)" "ou=users"
    (List.replicate 51 "cn") (mkReader "ldap://s") (by decide)

/-- C7: with no result message present, `fetch()` returns false, changes
nothing and sends nothing; and in every state reachable from a freshly
constructed reader in which the result is absent, the cursor holds no
entry: `currentEntry` is `none` and `getAttribute` raises the
no-current-entry error. -/
theorem noResult_fetch_false_and_no_entry (srv : Server) (s : ReaderState)
    (u name : String) (ops : List Op)
    (h1 : s.result = none)
    (h2 : (run srv ops (mkReader u)).result = none) :
    fetch srv s = (.ok (false, s), [])
    ∧ (run srv ops (mkReader u)).entry = none
    ∧ currentEntry (run srv ops (mkReader u)) = none
    ∧ getAttribute (run srv ops (mkReader u)) name
        = .error "No entry retrieved from server" := by
  have hInv0 : cursorInv (mkReader u) := fun _ => rfl
  have hent := run_inv srv ops (mkReader u) hInv0 h2
  exact ⟨fetch_result_none srv s h1, hent,
    by simp [currentEntry, hent], by simp [getAttribute, hent]⟩

/-- Witness for C7 on a fresh reader and after one no-result fetch. -/
theorem noResult_fetch_false_and_no_entry_witness :
    fetch srv1 (mkReader "ldap://s")
        = (.ok (false, mkReader "ldap://s"), [])
    ∧ (run srv1 [Op.doFetch] (mkReader "ldap://s")).entry = none
    ∧ currentEntry (run srv1 [Op.doFetch] (mkReader "ldap://s")) = none
    ∧ getAttribute (run srv1 [Op.doFetch] (mkReader "ldap://s")) "cn"
        = .error "No entry retrieved from server" :=
  noResult_fetch_false_and_no_entry srv1 (mkReader "ldap://s") "ldap://s"
    "cn" [Op.doFetch] rfl rfl

/-- C8: releasing a NULL value set performs no action (and is never an
error — `clearBerval` is total); releasing a non-NULL set frees exactly
the values before the NULL terminator, in order, and then the array
itself. -/
theorem clearBerval_contract :
    clearBerval none = []
    ∧ ∀ (vs : List Nat) (rest : List (Option Nat)),
        clearBerval (some (vs.map some ++ none :: rest))
          = vs.map FreeAct.val ++ [FreeAct.arr] := by
  refine ⟨rfl, ?_⟩
  intro vs rest
  simp [clearBerval, freeLoop_terminated]

/-- C9 (implicit): the two-argument `query(filter, base)` form passes
`attrNum = 0` and so leaves the stored attribute list untouched; after a
prior query requested an explicit list, the subsequent two-argument query
sends its search with that prior list (not NULL = all attributes). -/
theorem query2_uses_previous_attribute_list (srv : Server)
    (f b f2 b2 : String) (attrs : List String) (s s1 : ReaderState)
    (h0 : 0 < attrs.length)
    (h50 : attrs.length ≤ DEFAULT_MAX_NUMBER_OF_ATTRIBUTES)
    (h : (query srv f b attrs s).1 = .ok s1) :
    s1.requestedAttributes = some attrs
    ∧ (query2 srv f2 b2 s1).2.map (fun r => r.attrs) = [some attrs] := by
  have hq := query_fst_ok_attrs srv f b attrs s s1 h0 h50 h
  obtain ⟨resp, -, rfl⟩ := queryRaw_fst_ok _ _ _ hq
  refine ⟨rfl, ?_⟩
  simp [query2, query, queryRaw_snd, requestOf]

/-- Witness for C9: a query for `["cn", "sn"]` followed by a two-argument
query. -/
theorem query2_uses_previous_attribute_list_witness :
    attrQueryState.requestedAttributes = some ["cn", "sn"]
    ∧ (query2 srv2 "(objectClass=group)" "ou=groups" attrQueryState).2.map
        (fun r => r.attrs) = [some ["cn", "sn"]] :=
  query2_uses_previous_attribute_list srv2 "(objectClass=user)" "ou=users"
    "(objectClass=group)" "ou=groups" ["cn", "sn"] (mkReader "ldap://s")
    attrQueryState (by decide) (by decide) rfl

/-- C10 (implicit): a successful `query()` neither repositions the cursor
nor resets the pending cookie: its first search request carries the
previous query's cookie unchanged, the `entry` member still points at the
previous query's current entry, and the next `fetch()` advances from that
old entry (within the old page) instead of positioning at the first entry
of the new result. -/
theorem query_preserves_cursor_and_cookie (srv : Server) (f b : String)
    (s s1 : ReaderState) (reqs : List SearchReq) (page : Page) (i : Nat)
    (hent : s.entry = some (page, i))
    (hlt : i + 1 < page.length)
    (h : query2 srv f b s = (.ok s1, reqs)) :
    reqs.map (fun r => r.control.cookie) = [s.pageCookie]
    ∧ s1.entry = some (page, i)
    ∧ fetch srv s1
        = (.ok (true, { s1 with entry := some (page, i + 1) }), []) := by
  simp only [query2, query] at h
  rw [if_neg (by simp)] at h
  have h1 : (queryRaw srv
      { s with searchFilter := some f, searchBase := some b }).1 = .ok s1 := by
    rw [h]
  have h2 : (queryRaw srv
      { s with searchFilter := some f, searchBase := some b }).2 = reqs := by
    rw [h]
  obtain ⟨resp, -, rfl⟩ := queryRaw_fst_ok _ _ _ h1
  refine ⟨?_, hent, ?_⟩
  · rw [← h2, queryRaw_snd]
    simp [requestOf, preparePageControl]
  · exact fetch_advance srv _ resp.entries (page, i) (page, i + 1) rfl hent
      (by simp [nextEntry, hlt])

/-- Witness for C10: a second query issued while the cursor sits on the
first of two entries; the following fetch advances to the second old
entry. -/
theorem query_preserves_cursor_and_cookie_witness :
    posState2Reqs.map (fun r => r.control.cookie) = [posState.pageCookie]
    ∧ posState2.entry = some ([entA, entB], 0)
    ∧ fetch srv2 posState2
        = (.ok (true, { posState2 with entry := some ([entA, entB], 1) }),
           []) :=
  query_preserves_cursor_and_cookie srv2 "(objectClass=group)" "ou=groups"
    posState posState2 posState2Reqs [entA, entB] 0 rfl (by decide) rfl

end LdapSpec
